import Mathlib

/-!
Verification of the request caching, in-flight deduplication and job-polling
layer of the 3dmodel-app repository.

The embedding translates, from the TypeScript source:
  * `frontend/src/services/cache.ts` : `cacheGet`, `cacheSet`, `dedupe`
    (the durable key-value store `idb-keyval` is modelled as an association
    list; `Date.now()` is an explicit `now : Nat` argument);
  * `frontend/src/utils/hash.ts` : `fnv1a32`, `toHex8`, `fnv1aHex128`
    (the deterministic in-source fallback of `hashString`; the
    `crypto.subtle.digest SHA-256` branch is environment I/O and is out of
    the model — both branches are pure functions of the input string);
  * `frontend/src/services/meshyClient.ts` : `createJob`, `getJob`, and the
    polling loop and result construction of `generateModel` (network
    responses are oracle parameters; elapsed wall-clock time at the i-th
    loop-guard evaluation is an oracle `clock : Nat → Nat`);
  * `frontend/src/services/sketchfabClient.ts` : the non-2xx error paths of
    the search / detail / popular / categories / download calls and the
    body of `downloadSketchfabModel`.

Logical concurrency (several callers interleaved on one event loop) is
modelled by a trace of events acting on the in-flight registry: a `call`
event runs the synchronous body of `dedupe`, a `settle` event runs the
`.finally(() => inflight.delete(key))` callback attached to the operation.
-/

namespace ModelApp

/-! ### Cache (`cache.ts`) -/

/-- Record persisted by `cacheSet`: `{ value, storedAt: Date.now(), ttlMs }`. -/
structure CacheRecord (V : Type) where
  value : V
  storedAt : Nat
  ttlMs : Option Nat
  deriving Repr, DecidableEq

/-- Source constant `DEFAULT_TTL_MS = 1000 * 60 * 60 * 24` (24 h). -/
def DEFAULT_TTL_MS : Nat := 1000 * 60 * 60 * 24

/-- The `idb-keyval` store backing the cache, one binding per key. -/
abbrev Store (V : Type) : Type := List (String × CacheRecord V)

/-- Lookup in the backing store (`get(key)` of `idb-keyval`). -/
def storeGet {V : Type} (s : Store V) (k : String) : Option (CacheRecord V) :=
  (List.find? (fun p => p.1 == k) s).map Prod.snd

/-- Deletion from the backing store (`del(key)` of `idb-keyval`). -/
def storeDel {V : Type} (s : Store V) (k : String) : Store V :=
  List.filter (fun p => p.1 != k) s

/-- Overwrite in the backing store (`set(key, record)` of `idb-keyval`). -/
def storeSet {V : Type} (s : Store V) (k : String) (r : CacheRecord V) : Store V :=
  (k, r) :: storeDel s k

/-- Translation of `cacheGet` from `cache.ts`: read the record; absent gives
`undefined`; an expired record (`Date.now() - storedAt > ttlMs`, default TTL
when `ttlMs` is absent) is deleted and reported absent; otherwise the value
is returned.  Returns the store after the call together with the result. -/
def cacheGet {V : Type} (now : Nat) (s : Store V) (k : String) :
    Store V × Option V :=
  match storeGet s k with
  | none => (s, none)
  | some r =>
    let ttlMs := r.ttlMs.getD DEFAULT_TTL_MS
    if ttlMs < now - r.storedAt then (storeDel s k, none)
    else (s, some r.value)

/-- Translation of `cacheSet` from `cache.ts`:
`set(key, { value, storedAt: Date.now(), ttlMs })`. -/
def cacheSet {V : Type} (now : Nat) (s : Store V) (k : String) (v : V)
    (ttlMs : Option Nat) : Store V :=
  storeSet s k ⟨v, now, ttlMs⟩

/-! ### In-flight deduplicator (`cache.ts`) -/

/-- The module-level `inflight = new Map<string, Promise<any>>()`; promises
are identified by the numeric id of the operation that produced them. -/
abbrev Inflight : Type := List (String × Nat)

/-- The `inflight.get(key)` lookup. -/
def inflightGet (m : Inflight) (k : String) : Option Nat :=
  (List.find? (fun p => p.1 == k) m).map Prod.snd

/-- The `inflight.delete(key)` removal. -/
def inflightDel (m : Inflight) (k : String) : Inflight :=
  List.filter (fun p => p.1 != k) m

/-- The `inflight.set(key, p)` insertion. -/
def inflightSet (m : Inflight) (k : String) (i : Nat) : Inflight :=
  (k, i) :: inflightDel m k

/-- Outcome of one synchronous execution of the body of `dedupe`. -/
structure DedupeRet where
  newInflight : Inflight
  promise : Nat
  invoked : Bool
  deriving Repr, DecidableEq

/-- Translation of `dedupe` from `cache.ts`: if a promise for `key` is
registered it is returned to the caller and `fn` is not invoked; otherwise
`fn()` is invoked (promise id `opId`) and registered.  The
`.finally(() => inflight.delete(key))` callback is `dedupeSettle` below, run
when the operation settles. -/
def dedupe (m : Inflight) (k : String) (opId : Nat) : DedupeRet :=
  match inflightGet m k with
  | some j => ⟨m, j, false⟩
  | none => ⟨inflightSet m k opId, opId, true⟩

/-- The `finally` callback of `dedupe`: the registration for `key` is removed
when the operation settles, on success and on failure alike. -/
def dedupeSettle (m : Inflight) (k : String) : Inflight :=
  inflightDel m k

/-- One event of logical concurrency on the single event loop: a caller
invokes `dedupe key op`, or the pending operation for `key` settles. -/
inductive DEvent where
  | call (key : String) (opId : Nat)
  | settle (key : String)
  deriving Repr, DecidableEq

/-- Instrumented state of the deduplicator: the registry, the promise each
caller received (`(opId, promise)` in call order), and the operations that
were actually invoked (`(key, opId)` in invocation order). -/
structure DState where
  inflight : Inflight
  ret : List (Nat × Nat)
  invoked : List (String × Nat)
  deriving Repr, DecidableEq

/-- Effect of one event on the deduplicator state. -/
def dstep (st : DState) (e : DEvent) : DState :=
  match e with
  | .call k opId =>
    let r := dedupe st.inflight k opId
    { inflight := r.newInflight
      ret := st.ret ++ [(opId, r.promise)]
      invoked := st.invoked ++ (if r.invoked then [(k, opId)] else []) }
  | .settle k => { st with inflight := dedupeSettle st.inflight k }

/-- Run of a trace of events. -/
def drun (st : DState) : List DEvent → DState
  | [] => st
  | e :: t => drun (dstep st e) t

/-- Number of registry entries for a key (a `Map` holds at most one). -/
def keyCount (m : Inflight) (k : String) : Nat :=
  (List.filter (fun p => p.1 == k) m).length

/-- Number of operations invoked for a key in the instrumented state. -/
def invokedCount (st : DState) (k : String) : Nat :=
  (List.filter (fun p => p.1 == k) st.invoked).length

/-! ### Hashing (`hash.ts`)

`hashString` digests with WebCrypto SHA-256 when the environment provides
it and otherwise falls back to the in-source `fnv1aHex128`; both branches
are pure functions of the input string.  We embed the deterministic
in-source fallback.  `charCodeAt` is modelled by `Char.toNat`, valid for
the Basic Multilingual Plane (all strings handled here are ASCII). -/

/-- Translation of `fnv1a32` from `hash.ts`: `hash = seed >>> 0`, then for
each character `hash ^= charCode; hash = Math.imul(hash, 0x01000193) >>> 0`. -/
def fnv1a32 (s : List Char) (seed : Nat) : Nat :=
  List.foldl (fun hash c => (Nat.xor hash c.toNat * 0x01000193) % 2 ^ 32)
    (seed % 2 ^ 32) s

/-- Hexadecimal digit of a value below 16 (lower case, as `toString(16)`). -/
def hexDigit (n : Nat) : Char :=
  if n < 10 then Char.ofNat (48 + n) else Char.ofNat (87 + n)

/-- Translation of `toHex8` from `hash.ts`:
`(n >>> 0).toString(16).padStart(8, '0')`, for `n < 2^32`. -/
def toHex8 (n : Nat) : String :=
  String.mk (List.map (fun i => hexDigit (n / 16 ^ (7 - i) % 16)) (List.range 8))

/-- Translation of `fnv1aHex128` from `hash.ts`: four seeded FNV-1a passes
(original, reversed, `str + '#'`, `'#' + str`) concatenated as hex. -/
def fnv1aHex128 (str : String) : String :=
  let h1 := fnv1a32 str.data 0x811c9dc5
  let h2 := fnv1a32 str.data.reverse (Nat.xor 0x811c9dc5 0x9e3779b9)
  let h3 := fnv1a32 (str ++ "#").data (Nat.xor 0x811c9dc5 0x85ebca6b)
  let h4 := fnv1a32 ("#" ++ str).data (Nat.xor 0x811c9dc5 0xc2b2ae35)
  toHex8 h1 ++ toHex8 h2 ++ toHex8 h3 ++ toHex8 h4

/-- Model of `hashString` from `hash.ts` (its deterministic in-source
fallback branch, see the section comment). -/
def hashString (input : String) : String :=
  fnv1aHex128 input

/-! ### Generation requests and `JSON.stringify` (`meshyClient.ts`)

`generateModel` computes `keySource = JSON.stringify(input)` directly on the
caller's object.  A JavaScript object literal enumerates its string keys in
insertion order, so a `GenerationInput` value is modelled as the list of its
present (non-`undefined`) fields in construction order. -/

/-- The optional fields of `GenerationInput` (`types/index.ts`). -/
inductive GenField where
  | promptText
  | referenceImageDataUrl
  | style
  deriving Repr, DecidableEq

/-- JSON key of a `GenerationInput` field. -/
def fieldName : GenField → String
  | .promptText => "promptText"
  | .referenceImageDataUrl => "referenceImageDataUrl"
  | .style => "style"

/-- A `GenerationInput` object: present fields with their string values, in
insertion (construction) order. -/
abbrev GenerationInput : Type := List (GenField × String)

/-- JSON escape of one character, as `JSON.stringify` emits it. -/
def jsonEscapeChar (c : Char) : String :=
  if c = '"' then "\\\""
  else if c = '\\' then "\\\\"
  else if c = Char.ofNat 8 then "\\b"
  else if c = Char.ofNat 9 then "\\t"
  else if c = Char.ofNat 10 then "\\n"
  else if c = Char.ofNat 12 then "\\f"
  else if c = Char.ofNat 13 then "\\r"
  else if c.toNat < 32 then
    "\\u00" ++ String.mk [hexDigit (c.toNat / 16), hexDigit (c.toNat % 16)]
  else String.singleton c

/-- JSON string literal for a value, as `JSON.stringify` emits it. -/
def jsonQuote (s : String) : String :=
  "\"" ++ String.join (List.map jsonEscapeChar s.data) ++ "\""

/-- The value of `JSON.stringify(input)` for a `GenerationInput`: present
fields serialized in insertion order, `undefined` fields skipped. -/
def stringifyInput (input : GenerationInput) : String :=
  "\x7b"
    ++ String.intercalate ","
        (List.map (fun p => jsonQuote (fieldName p.1) ++ ":" ++ jsonQuote p.2) input)
    ++ "\x7d"

/-- The cache/dedupe key computed at the top of `generateModel`:
`` `model:${await hashString(JSON.stringify(input))}` ``. -/
def generateModelKey (input : GenerationInput) : String :=
  "model:" ++ hashString (stringifyInput input)

/-! ### Generation client (`meshyClient.ts`)

Network responses are oracle parameters: an HTTP response is its `ok` flag
together with its body text, and the value produced by `resp.json()` is a
separate parsed-payload parameter.  A thrown `Error` is `Except.error` with
the error's message.  Each of `createJob` / `getJob` also reports how many
`fetch` calls it performed, so that "no network call" is a provable fact of
the model. -/

/-- An HTTP response as the clients observe it: `resp.ok` and the body text
delivered by `resp.text()`. -/
structure HttpResp where
  ok : Bool
  bodyText : String
  deriving Repr, DecidableEq

/-- Parsed body of the job-status endpoint:
`{ status, model_url?, preview_image?, error? }`. -/
structure JobResp where
  status : String
  model_url : Option String
  preview_image : Option String
  error : Option String
  deriving Repr, DecidableEq

/-- Translation of `taskId.startsWith('mock-')`: list-level prefix test. -/
def strStartsWith (s p : String) : Bool :=
  List.isPrefixOf p.data s.data

/-- Translation of `createJob` from `meshyClient.ts`.  `apiKey` is the
`API_KEY` constant (`''` when unconfigured, which is falsy), `rand` the
value of `Math.random().toString(36).slice(2)`, `resp` the response of the
`POST /v2/text-to-3d` fetch and `parsedTaskId` the `taskId` field parsed
from its body.  Returns the result (task id, or thrown error message) and
the number of `fetch` calls performed. -/
def createJob (apiKey rand : String) (resp : HttpResp) (parsedTaskId : String) :
    Except String String × Nat :=
  if apiKey == "" then (.ok ("mock-" ++ rand), 0)
  else if resp.ok then (.ok parsedTaskId, 1)
  else (.error "Failed to create job", 1)

/-- The job snapshot returned by the mock branch of `getJob` (after a
simulated 800 ms delay, absorbed by the clock oracle). -/
def mockJobResp : JobResp :=
  { status := "succeeded"
    model_url := some "https://example.com/mock.glb"
    preview_image := some "https://placehold.co/400x300"
    error := none }

/-- Translation of `getJob` from `meshyClient.ts`: the mock branch for task
ids starting with `mock-`, else a `GET /v2/text-to-3d/:id` fetch whose
parsed body is `parsed`.  Same conventions as `createJob`. -/
def getJob (taskId : String) (resp : HttpResp) (parsed : JobResp) :
    Except String JobResp × Nat :=
  if strStartsWith taskId "mock-" then (.ok mockJobResp, 0)
  else if resp.ok then (.ok parsed, 1)
  else (.error "Failed to get job", 1)

/-- Polling ceiling of `generateModel`: `1000 * 60 * 2` ms. -/
def POLL_TIMEOUT_MS : Nat := 1000 * 60 * 2

/-- Cache TTL used by `generateModel`: `1000 * 60 * 60 * 24 * 7` ms. -/
def GENERATE_TTL_MS : Nat := 1000 * 60 * 60 * 24 * 7

/-- The mutable loop state of `generateModel`'s polling loop:
`status`, `modelUrl`, `preview`, `error`. -/
structure PollSt where
  status : String
  modelUrl : Option String
  preview : Option String
  error : Option String
  deriving Repr, DecidableEq

/-- Initial loop state: `let status = 'queued'` and the three variables
still `undefined`. -/
def initPollSt : PollSt :=
  { status := "queued", modelUrl := none, preview := none, error := none }

/-- The terminal statuses of the loop guard:
`status !== 'succeeded' && status !== 'failed'` continues the loop. -/
def isTerminal (status : String) : Bool :=
  status == "succeeded" || status == "failed"

/-- Translation of the polling loop of `generateModel`:
`while (status !== 'succeeded' && status !== 'failed' && Date.now() - start < 1000*60*2)`
with body `j = await getJob(taskId); status = j.status; ...` and a 1.5 s
sleep while `queued`/`processing` (the sleep only advances the clock
oracle).  `getJ i` is the outcome of the `i`-th `getJob` call, `clock i`
the value of `Date.now()` at the `i`-th guard evaluation, `start` the
`Date.now()` taken before the loop.  A thrown `getJob` error rejects the
whole operation (`some (.error e)`); `none` means the fuel bound was hit
before the loop exited.  On exit the final loop state and the number of
polls performed are returned. -/
def pollLoop (getJ : Nat → Except String JobResp) (clock : Nat → Nat)
    (start : Nat) : Nat → Nat → PollSt → Option (Except String (PollSt × Nat))
  | 0, _, _ => none
  | fuel + 1, i, st =>
    if isTerminal st.status then some (.ok (st, i))
    else if clock i - start < POLL_TIMEOUT_MS then
      match getJ i with
      | .error e => some (.error e)
      | .ok j =>
        pollLoop getJ clock start fuel (i + 1)
          { status := j.status, modelUrl := j.model_url
            preview := j.preview_image, error := j.error }
    else some (.ok (st, i))

/-- The `GeneratedModel` record (`types/index.ts`) as `generateModel`
constructs it; `status` holds the string written by the source. -/
structure GeneratedModel where
  id : String
  inputHash : String
  createdAt : Nat
  status : String
  glbUrl : Option String
  previewImageUrl : Option String
  provider : String
  errorMessage : Option String
  deriving Repr, DecidableEq

/-- The status written into the result:
`status === 'succeeded' ? 'succeeded' : status === 'failed' ? 'failed' : 'failed'`
(both non-succeeded branches of the source produce `'failed'`). -/
def finishStatus (status : String) : String :=
  if status == "succeeded" then "succeeded"
  else if status == "failed" then "failed"
  else "failed"

/-- The result object built at the end of `generateModel`'s operation.
`apiKeyPresent` is the truthiness of `API_KEY`
(`provider: API_KEY ? 'meshy' : 'mock'`). -/
def mkResult (taskId inputHash : String) (now : Nat) (st : PollSt)
    (apiKeyPresent : Bool) : GeneratedModel :=
  { id := taskId
    inputHash := inputHash
    createdAt := now
    status := finishStatus st.status
    glbUrl := st.modelUrl
    previewImageUrl := st.preview
    provider := if apiKeyPresent then "meshy" else "mock"
    errorMessage := st.error }

/-- Translation of the async operation passed to `dedupe` by
`generateModel`: create the job, poll to completion, build the result and
write it to the cache with a 7-day TTL.  `s` is the cache store when the
final `cacheSet` runs and `now` the value of `Date.now()` stamped into the
result; on success the result and the written store are returned. -/
def generateModelBody (apiKey rand : String) (createResp : HttpResp)
    (createParsed : String) (pollResps : Nat → HttpResp)
    (pollParsed : Nat → JobResp) (start : Nat) (clock : Nat → Nat)
    (fuel : Nat) (inputHash cacheKey : String) (now : Nat)
    (s : Store GeneratedModel) :
    Option (Except String (GeneratedModel × Store GeneratedModel)) :=
  match (createJob apiKey rand createResp createParsed).1 with
  | .error e => some (.error e)
  | .ok taskId =>
    match pollLoop (fun i => (getJob taskId (pollResps i) (pollParsed i)).1)
        clock start fuel 0 initPollSt with
    | none => none
    | some (.error e) => some (.error e)
    | some (.ok (st, _)) =>
      let result := mkResult taskId inputHash now st (apiKey != "")
      some (.ok (result, cacheSet now s cacheKey result (some GENERATE_TTL_MS)))

/-! ### Model-library client (`sketchfabClient.ts`)

The cached read paths (search / detail / popular / categories) follow the
same `cacheGet` / `dedupe` / `cacheSet` shape as `generateModel`; what the
claims need from them is their non-2xx error path, which is
`const text = await response.text().catch(() => ''); throw new Error(text || generic)`.
`downloadSketchfabModel` is embedded whole, with the cache store and the
in-flight registry passed through so that its (absent) effect on them is a
provable fact of the model. -/

/-- The error message thrown by a sketchfab client call on a non-2xx
response: the body text when non-empty, the call's generic message
otherwise (`text || generic`; an empty string is falsy). -/
def sketchfabErrorMessage (resp : HttpResp) (generic : String) : String :=
  if resp.bodyText == "" then generic else resp.bodyText

/-- Outcome of the single fetch of a sketchfab read call: the parsed body
on a 2xx response, the thrown error otherwise.  No retry is performed: the
call resolves or throws after this one fetch. -/
def sketchfabFetch {α : Type} (resp : HttpResp) (generic : String)
    (parsed : α) : Except String α :=
  if resp.ok then .ok parsed else .error (sketchfabErrorMessage resp generic)

/-- The fetch outcome of `searchSketchfabModels` (non-mock branch). -/
def searchSketchfabModelsFetch {α : Type} (resp : HttpResp) (parsed : α) :
    Except String α :=
  sketchfabFetch resp "Failed to search Sketchfab models" parsed

/-- The fetch outcome of `getSketchfabModel` (non-mock branch). -/
def getSketchfabModelFetch {α : Type} (resp : HttpResp) (parsed : α) :
    Except String α :=
  sketchfabFetch resp "Failed to get Sketchfab model" parsed

/-- The fetch outcome of `getPopularSketchfabModels` (non-mock branch). -/
def getPopularSketchfabModelsFetch {α : Type} (resp : HttpResp) (parsed : α) :
    Except String α :=
  sketchfabFetch resp "Failed to get popular Sketchfab models" parsed

/-- The fetch outcome of `getSketchfabCategories` (non-mock branch). -/
def getSketchfabCategoriesFetch {α : Type} (resp : HttpResp) (parsed : α) :
    Except String α :=
  sketchfabFetch resp "Failed to get Sketchfab categories" parsed

/-- `SketchfabDownloadRequest` (`types/index.ts`). -/
structure SketchfabDownloadRequest where
  model_uid : String
  format : Option String
  user_id : Option String
  deriving Repr, DecidableEq

/-- `SketchfabDownloadResponse` (`types/index.ts`). -/
structure SketchfabDownloadResponse where
  model_uid : String
  download_id : String
  status : String
  message : String
  download_url : Option String
  file_format : Option String
  file_size : Option Nat
  model_name : Option String
  author : Option String
  license : Option String
  requested_at : String
  expires_at : String
  attribution_required : Option Bool
  commercial_use : Option Bool
  deriving Repr, DecidableEq

/-- Translation of `downloadSketchfabModel` from `sketchfabClient.ts`.
`rand` stands for `Math.random().toString(36).slice(2)`, `nowIso` /
`expiresIso` for the two `toISOString()` timestamps of the mock branch,
`resp` / `parsed` for the `POST /sketchfab/download` response.  The cache
store and in-flight registry are passed through; the returned `Nat` counts
the `fetch` calls performed. -/
def downloadSketchfabModel {V : Type} (apiKey rand nowIso expiresIso : String)
    (request : SketchfabDownloadRequest) (resp : HttpResp)
    (parsed : SketchfabDownloadResponse) (s : Store V) (m : Inflight) :
    Except String SketchfabDownloadResponse × Store V × Inflight × Nat :=
  if apiKey == "" then
    (.ok
      { model_uid := request.model_uid
        download_id := "mock-download-" ++ rand
        status := "success"
        message := "Mock download successful"
        download_url := some "https://example.com/mock-model.glb"
        file_format := some "glb"
        file_size := some 1024000
        model_name := some "Mock Model"
        author := some "Mock Author"
        license := some "cc0"
        requested_at := nowIso
        expires_at := expiresIso
        attribution_required := some true
        commercial_use := some false }, s, m, 0)
  else
    (sketchfabFetch resp "Failed to download Sketchfab model" parsed, s, m, 1)

/-- What the synchronous front of a `generateModel` call did. -/
inductive GMOutcome where
  | cachedHit (g : GeneratedModel)
  | startedOp (promise : Nat)
  | joinedPending (promise : Nat)
  deriving Repr, DecidableEq

/-- Translation of the front of `generateModel`: compute the cache key,
consult the cache, return the cached value on a hit, otherwise enter
`dedupe` with this caller's operation (id `opId`).  Returns the store and
in-flight registry after the call and what the caller observed. -/
def generateModelEnter (now : Nat) (s : Store GeneratedModel) (m : Inflight)
    (input : GenerationInput) (opId : Nat) :
    Store GeneratedModel × Inflight × GMOutcome :=
  let cacheKey := generateModelKey input
  match cacheGet now s cacheKey with
  | (s1, some g) => (s1, m, .cachedHit g)
  | (s1, none) =>
    let r := dedupe m cacheKey opId
    (s1, r.newInflight,
      if r.invoked then .startedOp r.promise else .joinedPending r.promise)

/-! ### Helper lemmas -/

theorem storeGet_storeSet_self {V : Type} (s : Store V) (k : String)
    (r : CacheRecord V) : storeGet (storeSet s k r) k = some r := by
  simp [storeGet, storeSet, List.find?]

theorem inflightGet_inflightSet_self (m : Inflight) (k : String) (i : Nat) :
    inflightGet (inflightSet m k i) k = some i := by
  simp [inflightGet, inflightSet, List.find?]

theorem inflightGet_cons (a : String × Nat) (m : Inflight) (k : String) :
    inflightGet (a :: m) k
      = if a.1 = k then some a.2 else inflightGet m k := by
  by_cases h : a.1 = k <;> simp [inflightGet, List.find?_cons, h]

theorem inflightDel_cons (a : String × Nat) (m : Inflight) (k : String) :
    inflightDel (a :: m) k
      = if a.1 = k then inflightDel m k else a :: inflightDel m k := by
  by_cases h : a.1 = k <;> simp [inflightDel, List.filter_cons, h]

theorem inflightGet_inflightDel_self (m : Inflight) (k : String) :
    inflightGet (inflightDel m k) k = none := by
  induction m with
  | nil => rfl
  | cons a m ih =>
    rw [inflightDel_cons]
    by_cases hk : a.1 = k
    · simpa [hk] using ih
    · simpa [hk, inflightGet_cons] using ih

theorem inflightGet_inflightDel_ne (m : Inflight) (p k : String) (h : p ≠ k) :
    inflightGet (inflightDel m p) k = inflightGet m k := by
  induction m with
  | nil => rfl
  | cons a m ih =>
    rw [inflightDel_cons]
    by_cases hp : a.1 = p
    · have hak : ¬a.1 = k := by rw [hp]; exact h
      rw [if_pos hp, inflightGet_cons, if_neg hak]
      exact ih
    · rw [if_neg hp, inflightGet_cons, inflightGet_cons]
      by_cases hak : a.1 = k
      · rw [if_pos hak, if_pos hak]
      · rw [if_neg hak, if_neg hak]
        exact ih

theorem inflightGet_inflightSet_ne (m : Inflight) (p k : String) (i : Nat)
    (h : p ≠ k) : inflightGet (inflightSet m p i) k = inflightGet m k := by
  rw [inflightSet, inflightGet_cons, if_neg h]
  exact inflightGet_inflightDel_ne m p k h

theorem keyCount_cons (a : String × Nat) (m : Inflight) (k : String) :
    keyCount (a :: m) k
      = (if a.1 = k then 1 else 0) + keyCount m k := by
  by_cases h : a.1 = k
  · simp [keyCount, List.filter_cons, h, Nat.add_comm]
  · simp [keyCount, List.filter_cons, h]

theorem keyCount_inflightDel_self (m : Inflight) (k : String) :
    keyCount (inflightDel m k) k = 0 := by
  induction m with
  | nil => rfl
  | cons a m ih =>
    rw [inflightDel_cons]
    by_cases h : a.1 = k
    · simpa [h] using ih
    · simpa [h, keyCount_cons] using ih

theorem keyCount_inflightDel_le (m : Inflight) (p k : String) :
    keyCount (inflightDel m p) k ≤ keyCount m k := by
  induction m with
  | nil => exact Nat.le_refl _
  | cons a m ih =>
    rw [inflightDel_cons, keyCount_cons]
    by_cases hp : a.1 = p
    · rw [if_pos hp]; omega
    · rw [if_neg hp, keyCount_cons]; omega

theorem keyCount_inflightSet (m : Inflight) (k : String) (i : Nat)
    (k2 : String) (h : ∀ k3, keyCount m k3 ≤ 1) :
    keyCount (inflightSet m k i) k2 ≤ 1 := by
  by_cases hk : k = k2
  · subst hk
    rw [inflightSet, keyCount_cons, keyCount_inflightDel_self]
    simp
  · rw [inflightSet, keyCount_cons, if_neg hk]
    simpa using Nat.le_trans (keyCount_inflightDel_le m k k2) (h k2)

theorem dstep_keyCount (st : DState) (e : DEvent)
    (h : ∀ k2, keyCount st.inflight k2 ≤ 1) :
    ∀ k2, keyCount (dstep st e).inflight k2 ≤ 1 := by
  intro k2
  cases e with
  | call k op =>
    cases hg : inflightGet st.inflight k with
    | some j => simpa [dstep, dedupe, hg] using h k2
    | none =>
      simpa [dstep, dedupe, hg] using keyCount_inflightSet st.inflight k op k2 h
  | settle k =>
    exact Nat.le_trans (keyCount_inflightDel_le st.inflight k k2) (h k2)

theorem drun_keyCount (t : List DEvent) : ∀ st : DState,
    (∀ k2, keyCount st.inflight k2 ≤ 1) →
    ∀ k2, keyCount (drun st t).inflight k2 ≤ 1 := by
  induction t with
  | nil => intro st h; exact h
  | cons e t ih => intro st h; exact ih (dstep st e) (dstep_keyCount st e h)

theorem drun_append (st : DState) (p q : List DEvent) :
    drun st (p ++ q) = drun (drun st p) q := by
  induction p generalizing st with
  | nil => rfl
  | cons e p ih => simp [drun, ih]

/-- While an operation for `k` is pending and no settle event for `k`
occurs, the registration survives every event and no further operation for
`k` is invoked. -/
theorem drun_pending_stable (t : List DEvent) : ∀ (st : DState) (k : String)
    (i : Nat), inflightGet st.inflight k = some i →
    (∀ e ∈ t, e ≠ DEvent.settle k) →
    inflightGet (drun st t).inflight k = some i ∧
    invokedCount (drun st t) k = invokedCount st k := by
  induction t with
  | nil => intro st k i h _; exact ⟨h, rfl⟩
  | cons e t ih =>
    intro st k i hpend hns
    have hns2 : ∀ e2 ∈ t, e2 ≠ DEvent.settle k := fun e2 he2 => hns e2 (by simp [he2])
    cases e with
    | call p op =>
      by_cases hp : p = k
      · subst hp
        have hstep : dstep st (.call p op)
            = { st with ret := st.ret ++ [(op, i)] } := by
          simp [dstep, dedupe, hpend]
        rw [drun, hstep]
        exact ih _ p i hpend hns2
      · have hcount : invokedCount (dstep st (.call p op)) k
            = invokedCount st k := by
          cases hg : inflightGet st.inflight p with
          | some j => simp [dstep, dedupe, hg, invokedCount]
          | none =>
            simp [dstep, dedupe, hg, invokedCount, List.filter_append,
              List.filter_cons, hp]
        have hget : inflightGet (dstep st (.call p op)).inflight k = some i := by
          cases hg : inflightGet st.inflight p with
          | some j => simpa [dstep, dedupe, hg] using hpend
          | none =>
            simpa [dstep, dedupe, hg, inflightGet_inflightSet_ne _ p k op hp]
              using hpend
        rw [drun]
        have := ih (dstep st (.call p op)) k i hget hns2
        exact ⟨this.1, by rw [this.2, hcount]⟩
    | settle p =>
      have hp : p ≠ k := by
        intro hpk
        exact hns (DEvent.settle p) (by simp) (by rw [hpk])
      have hget : inflightGet (dstep st (.settle p)).inflight k = some i := by
        simpa [dstep, dedupeSettle, inflightGet_inflightDel_ne st.inflight p k hp]
          using hpend
      rw [drun]
      have hcount : invokedCount (dstep st (.settle p)) k = invokedCount st k := by
        simp [dstep, invokedCount]
      have := ih (dstep st (.settle p)) k i hget hns2
      exact ⟨this.1, by rw [this.2, hcount]⟩

/-! ### Claim theorems -/

/-- C1: if a caller invokes `dedupe k` with no operation pending for `k`
(operation id `i`), and after an arbitrary interleaving `t` of events that
never settles `k` a second caller invokes `dedupe k` (operation id `j`),
then: the underlying operation for `k` is invoked exactly once across the
whole interval (the invocation count for `k` rises by exactly one); the
first caller receives the promise of operation `i` and so does the second
(identical promise, hence the identical resolved value or identical
failure); and at every instant of the run the registry holds at most one
in-flight operation per key. -/
theorem dedupe_collapses_concurrent_callers
    (st : DState) (k : String) (i j : Nat) (t : List DEvent)
    (hfree : inflightGet st.inflight k = none)
    (hns : ∀ e ∈ t, e ≠ DEvent.settle k)
    (hinv : ∀ k2, keyCount st.inflight k2 ≤ 1) :
    (dstep st (.call k i)).ret = st.ret ++ [(i, i)] ∧
    (dstep (drun (dstep st (.call k i)) t) (.call k j)).ret
      = (drun (dstep st (.call k i)) t).ret ++ [(j, i)] ∧
    invokedCount (dstep (drun (dstep st (.call k i)) t) (.call k j)) k
      = invokedCount st k + 1 ∧
    (∀ p, p <+: (DEvent.call k i :: t ++ [DEvent.call k j]) →
      ∀ k2, keyCount (drun st p).inflight k2 ≤ 1) := by
  have hstep1 : dstep st (.call k i)
      = { inflight := inflightSet st.inflight k i
          ret := st.ret ++ [(i, i)]
          invoked := st.invoked ++ [(k, i)] } := by
    simp [dstep, dedupe, hfree]
  have hpend1 : inflightGet (dstep st (.call k i)).inflight k = some i := by
    rw [hstep1]; exact inflightGet_inflightSet_self st.inflight k i
  obtain ⟨hpend2, hcount2⟩ :=
    drun_pending_stable t (dstep st (.call k i)) k i hpend1 hns
  have hcount1 : invokedCount (dstep st (.call k i)) k
      = invokedCount st k + 1 := by
    rw [hstep1]
    simp [invokedCount, List.filter_append, List.filter_cons]
  set st2 := drun (dstep st (.call k i)) t with hst2
  have hstep3 : dstep st2 (.call k j)
      = { st2 with ret := st2.ret ++ [(j, i)] } := by
    simp [dstep, dedupe, hpend2]
  refine ⟨by rw [hstep1], by rw [hstep3], ?_, ?_⟩
  · have : invokedCount (dstep st2 (.call k j)) k = invokedCount st2 k := by
      rw [hstep3]; simp [invokedCount]
    rw [this, hcount2, hcount1]
  · intro p hp k2
    exact drun_keyCount p st hinv k2

/-- Witness for C1 at a concrete state: empty registry, callers `0` and
`1` on key `"k"`, with no events in between. -/
theorem dedupe_collapses_concurrent_callers_witness :
    (dstep ⟨[], [], []⟩ (.call "k" 0)).ret = [] ++ [(0, 0)] ∧
    (dstep (drun (dstep ⟨[], [], []⟩ (.call "k" 0)) []) (.call "k" 1)).ret
      = (drun (dstep ⟨[], [], []⟩ (.call "k" 0)) []).ret ++ [(1, 0)] ∧
    invokedCount (dstep (drun (dstep ⟨[], [], []⟩ (.call "k" 0)) [])
        (.call "k" 1)) "k"
      = invokedCount ⟨[], [], []⟩ "k" + 1 ∧
    (∀ p, p <+: (DEvent.call "k" 0 :: [] ++ [DEvent.call "k" 1]) →
      ∀ k2, keyCount (drun ⟨[], [], []⟩ p).inflight k2 ≤ 1) :=
  dedupe_collapses_concurrent_callers ⟨[], [], []⟩ "k" 0 1 []
    (by decide) (by simp) (fun k2 => by simp [keyCount])

/-- Immediately-after-write read: `cacheGet` on the freshly written key
finds the fresh record and applies the TTL check to it. -/
theorem cacheGet_after_set {V : Type} (s : Store V) (k : String) (v : V)
    (ttl : Option Nat) (t0 now : Nat) :
    cacheGet now (cacheSet t0 s k v ttl) k
      = if ttl.getD DEFAULT_TTL_MS < now - t0
        then (storeDel (cacheSet t0 s k v ttl) k, none)
        else (cacheSet t0 s k v ttl, some v) := by
  have hget := storeGet_storeSet_self s k (⟨v, t0, ttl⟩ : CacheRecord V)
  by_cases h : ttl.getD DEFAULT_TTL_MS < now - t0
  · rw [if_pos h]
    simp only [cacheGet, cacheSet] at *
    rw [hget]
    simp [h]
  · rw [if_neg h]
    simp only [cacheGet, cacheSet] at *
    rw [hget]
    simp [h]

/-- C5: writing `cacheSet k v (some t)` at time `t0` makes `cacheGet` at
time `now` return `v` exactly while `now - t0 ≤ t`; once `now - t0 > t`
the stale record is deleted from the store and the read reports absent;
with the TTL omitted (`none`) the 24-hour `DEFAULT_TTL_MS` governs the same
way at read time; and a read of an absent key reports absent with the
store untouched (a miss is a value of the result type, never an error). -/
theorem cache_set_get_ttl {V : Type} (s : Store V) (k : String) (v : V)
    (t t0 now : Nat) :
    (storeGet s k = none → cacheGet now s k = (s, none)) ∧
    (now - t0 ≤ t →
      cacheGet now (cacheSet t0 s k v (some t)) k
        = (cacheSet t0 s k v (some t), some v)) ∧
    (t < now - t0 →
      cacheGet now (cacheSet t0 s k v (some t)) k
        = (storeDel (cacheSet t0 s k v (some t)) k, none)) ∧
    (now - t0 ≤ DEFAULT_TTL_MS →
      cacheGet now (cacheSet t0 s k v none) k
        = (cacheSet t0 s k v none, some v)) ∧
    (DEFAULT_TTL_MS < now - t0 →
      cacheGet now (cacheSet t0 s k v none) k
        = (storeDel (cacheSet t0 s k v none) k, none)) := by
  refine ⟨fun h => by simp [cacheGet, h], fun h => ?_, fun h => ?_,
    fun h => ?_, fun h => ?_⟩
  · rw [cacheGet_after_set, if_neg]
    simpa using h
  · rw [cacheGet_after_set, if_pos]
    simpa using h
  · rw [cacheGet_after_set, if_neg]
    simpa using h
  · rw [cacheGet_after_set, if_pos]
    simpa using h

/-- Witness for C5: store the value `5` under `"k"` at time `100` with a
10 ms TTL; a read at `105` returns it, a read at `111` deletes it and
reports absent. -/
theorem cache_set_get_ttl_witness :
    cacheGet 105 (cacheSet 100 ([] : Store Nat) "k" 5 (some 10)) "k"
      = (cacheSet 100 ([] : Store Nat) "k" 5 (some 10), some 5) ∧
    cacheGet 111 (cacheSet 100 ([] : Store Nat) "k" 5 (some 10)) "k"
      = (storeDel (cacheSet 100 ([] : Store Nat) "k" 5 (some 10)) "k", none) :=
  ⟨(cache_set_get_ttl [] "k" 5 10 100 105).2.1 (by decide),
   (cache_set_get_ttl [] "k" 5 10 100 111).2.2.1 (by decide)⟩

/-- C6: after the operation registered for a key settles (the `finally`
callback runs, on success and failure alike), the registration is gone, so
the next `dedupe` call for that key invokes its own operation `op2` and
returns that fresh promise. -/
theorem dedupe_key_released_after_settle (m : Inflight) (k : String) (j : Nat) :
    inflightGet (dedupeSettle m k) k = none ∧
    (dedupe (dedupeSettle m k) k j).invoked = true ∧
    (dedupe (dedupeSettle m k) k j).promise = j := by
  have h := inflightGet_inflightDel_self m k
  exact ⟨h, by simp [dedupe, dedupeSettle, h], by simp [dedupe, dedupeSettle, h]⟩

/-- A status that is not terminal maps to `'failed'` in the result. -/
theorem finishStatus_of_not_terminal (s : String) (h : isTerminal s = false) :
    finishStatus s = "failed" := by
  have hs : (s == "succeeded") = false := by
    by_cases hc : (s == "succeeded") = true
    · rw [isTerminal, hc] at h; simp at h
    · simpa using hc
  rw [finishStatus, if_neg (by simp_all)]
  by_cases hf : s == "failed" <;> simp [hf]

/-- Exit of the polling loop when every poll answers with a non-terminal
status: once some guard evaluation sees the ceiling reached, the loop
stops, and the exit state is the initial state (zero polls) or the
projection of the last response polled. -/
theorem pollLoop_no_terminal (getJ : Nat → Except String JobResp)
    (clock : Nat → Nat) (start N : Nat)
    (hresp : ∀ n, ∃ r, getJ n = Except.ok r ∧ isTerminal r.status = false)
    (hceil : POLL_TIMEOUT_MS ≤ clock N - start) :
    ∀ fuel i st, isTerminal st.status = false → i ≤ N → N - i < fuel →
    ∃ st2 k2, pollLoop getJ clock start fuel i st = some (.ok (st2, k2)) ∧
      i ≤ k2 ∧ k2 ≤ N ∧ isTerminal st2.status = false ∧
      ((k2 = i ∧ st2 = st) ∨
       (i < k2 ∧ ∃ r, getJ (k2 - 1) = Except.ok r ∧
         st2 = ⟨r.status, r.model_url, r.preview_image, r.error⟩)) := by
  intro fuel
  induction fuel with
  | zero => intro i st _ _ hfuel; omega
  | succ fuel ih =>
    intro i st hterm hiN hfuel
    rw [pollLoop, if_neg (by simp [hterm])]
    by_cases hlt : clock i - start < POLL_TIMEOUT_MS
    · rw [if_pos hlt]
      obtain ⟨r, hr, hrt⟩ := hresp i
      rw [hr]
      have hiN2 : i + 1 ≤ N := by
        rcases Nat.lt_or_ge i N with hi | hi
        · omega
        · have : i = N := by omega
          subst this; omega
      obtain ⟨st2, k2, heq, hik, hkN, hterm2, hchar⟩ :=
        ih (i + 1) ⟨r.status, r.model_url, r.preview_image, r.error⟩ hrt hiN2
          (by omega)
      refine ⟨st2, k2, heq, by omega, hkN, hterm2, ?_⟩
      rcases hchar with ⟨hk, hst⟩ | ⟨hk, hr2⟩
      · exact Or.inr ⟨by omega, r, by simpa [hk] using hr, hst⟩
      · exact Or.inr ⟨by omega, hr2⟩
    · rw [if_neg hlt]
      exact ⟨st, i, rfl, Nat.le_refl i, hiN, hterm, Or.inl ⟨rfl, rfl⟩⟩

/-- C3: in a run of `generateModel` whose polls all answer with a
non-terminal status, once some guard evaluation `N` sees the two-minute
ceiling reached the polling loop stops (no unresolved promise), and the
caller receives the well-formed result built by `mkResult`, whose status is
`'failed'` and whose `errorMessage` is the `error` field of the last
observed response (or `none` when the ceiling was already reached before
the first poll). -/
theorem polling_timeout_returns_failed (getJ : Nat → Except String JobResp)
    (clock : Nat → Nat) (start N fuel : Nat) (taskId inputHash : String)
    (now : Nat) (apiKeyPresent : Bool)
    (hresp : ∀ n, ∃ r, getJ n = Except.ok r ∧ isTerminal r.status = false)
    (hceil : POLL_TIMEOUT_MS ≤ clock N - start)
    (hfuel : N < fuel) :
    ∃ st k2, pollLoop getJ clock start fuel 0 initPollSt
        = some (.ok (st, k2)) ∧ k2 ≤ N ∧
      (mkResult taskId inputHash now st apiKeyPresent).status = "failed" ∧
      ((k2 = 0 ∧
          (mkResult taskId inputHash now st apiKeyPresent).errorMessage
            = none) ∨
       (0 < k2 ∧ ∃ r, getJ (k2 - 1) = Except.ok r ∧
          (mkResult taskId inputHash now st apiKeyPresent).errorMessage
            = r.error)) := by
  obtain ⟨st2, k2, heq, _, hkN, hterm2, hchar⟩ :=
    pollLoop_no_terminal getJ clock start N hresp hceil fuel 0 initPollSt
      rfl (Nat.zero_le N) (by omega)
  refine ⟨st2, k2, heq, hkN, ?_, ?_⟩
  · show finishStatus st2.status = "failed"
    exact finishStatus_of_not_terminal st2.status hterm2
  · rcases hchar with ⟨hk, hst⟩ | ⟨hk, r, hr, hst⟩
    · exact Or.inl ⟨hk, by rw [hst]; rfl⟩
    · exact Or.inr ⟨hk, r, hr, by rw [hst]; rfl⟩

/-- Witness for C3: every poll answers `processing` (with an error detail
`"busy"`), the clock advances 1500 ms per guard check, so guard check 80
sees the 120000 ms ceiling reached. -/
theorem polling_timeout_returns_failed_witness :
    ∃ st k2,
      pollLoop (fun _ => Except.ok ⟨"processing", none, none, some "busy"⟩)
          (fun i => i * 1500) 0 100 0 initPollSt
        = some (.ok (st, k2)) ∧ k2 ≤ 80 ∧
      (mkResult "t" "h" 5 st true).status = "failed" ∧
      ((k2 = 0 ∧ (mkResult "t" "h" 5 st true).errorMessage = none) ∨
       (0 < k2 ∧ ∃ r,
          (Except.ok (⟨"processing", none, none, some "busy"⟩ : JobResp)
              : Except String JobResp) = Except.ok r ∧
          (mkResult "t" "h" 5 st true).errorMessage = r.error)) :=
  polling_timeout_returns_failed
    (fun _ => Except.ok ⟨"processing", none, none, some "busy"⟩)
    (fun i => i * 1500) 0 80 100 "t" "h" 5 true
    (fun _ => ⟨⟨"processing", none, none, some "busy"⟩, rfl, rfl⟩)
    (by decide) (by decide)

/-- A list is a prefix of itself followed by anything. -/
theorem isPrefixOf_append_self (l1 l2 : List Char) :
    List.isPrefixOf l1 (l1 ++ l2) = true := by
  induction l1 with
  | nil => simp [List.isPrefixOf]
  | cons a l ih => simp [List.isPrefixOf, ih]

/-- Every synthesized mock task id passes the `startsWith('mock-')` test. -/
theorem strStartsWith_mock (rand : String) :
    strStartsWith ("mock-" ++ rand) "mock-" = true := by
  rw [strStartsWith, String.data_append]
  exact isPrefixOf_append_self "mock-".data rand.data

/-- Unfolding of one polling iteration. -/
theorem pollLoop_succ (getJ : Nat → Except String JobResp) (clock : Nat → Nat)
    (start fuel i : Nat) (st : PollSt) :
    pollLoop getJ clock start (fuel + 1) i st
      = if isTerminal st.status then some (.ok (st, i))
        else if clock i - start < POLL_TIMEOUT_MS then
          match getJ i with
          | .error e => some (.error e)
          | .ok j =>
            pollLoop getJ clock start fuel (i + 1)
              { status := j.status, modelUrl := j.model_url
                preview := j.preview_image, error := j.error }
        else some (.ok (st, i)) := rfl

/-- C7: with no API credential configured (`API_KEY = ''`), `createJob`
synthesizes a client-side task identifier and performs zero `fetch` calls;
every status poll takes the mock branch (zero `fetch` calls) and answers
the fixed mock snapshot; and the whole run returns a well-formed result
whose `status`, `glbUrl`, `previewImageUrl`, `provider` and `errorMessage`
are the fixed placeholder values labeled `provider = "mock"` — deterministic
in everything but the synthesized id — which is also written to the cache. -/
theorem mock_mode_no_network_succeeds (rand : String) (createResp : HttpResp)
    (createParsed : String) (pollResps : Nat → HttpResp)
    (pollParsed : Nat → JobResp) (start : Nat) (clock : Nat → Nat)
    (fuel : Nat) (inputHash cacheKey : String) (now : Nat)
    (s : Store GeneratedModel)
    (hclock : clock 0 - start < POLL_TIMEOUT_MS) (hfuel : 2 ≤ fuel) :
    createJob "" rand createResp createParsed
      = (.ok ("mock-" ++ rand), 0) ∧
    (∀ resp parsed, getJob ("mock-" ++ rand) resp parsed
      = (.ok mockJobResp, 0)) ∧
    (∃ g, generateModelBody "" rand createResp createParsed pollResps
        pollParsed start clock fuel inputHash cacheKey now s
        = some (.ok (g, cacheSet now s cacheKey g (some GENERATE_TTL_MS))) ∧
      g.id = "mock-" ++ rand ∧ g.inputHash = inputHash ∧ g.createdAt = now ∧
      g.status = "succeeded" ∧
      g.glbUrl = some "https://example.com/mock.glb" ∧
      g.previewImageUrl = some "https://placehold.co/400x300" ∧
      g.provider = "mock" ∧ g.errorMessage = none) := by
  have hget : ∀ resp parsed, getJob ("mock-" ++ rand) resp parsed
      = (.ok mockJobResp, 0) := by
    intro resp parsed
    rw [getJob, if_pos (strStartsWith_mock rand)]
  have hcreate : createJob "" rand createResp createParsed
      = (.ok ("mock-" ++ rand), 0) := by
    simp [createJob]
  refine ⟨hcreate, hget, ?_⟩
  obtain ⟨f, rfl⟩ : ∃ f, fuel = f + 2 := ⟨fuel - 2, by omega⟩
  have hget1 : ∀ i,
      (getJob ("mock-" ++ rand) (pollResps i) (pollParsed i)).1
        = Except.ok mockJobResp := fun i => by rw [hget]
  have hpoll : pollLoop
      (fun i => (getJob ("mock-" ++ rand) (pollResps i) (pollParsed i)).1)
      clock start (f + 2) 0 initPollSt
      = some (.ok (⟨"succeeded", some "https://example.com/mock.glb",
          some "https://placehold.co/400x300", none⟩, 1)) := by
    show pollLoop
      (fun i => (getJob ("mock-" ++ rand) (pollResps i) (pollParsed i)).1)
      clock start (f + 1 + 1) 0 initPollSt = _
    simp only [pollLoop_succ, hget1]
    simp [initPollSt, isTerminal, hclock, mockJobResp]
  have hcreate1 : (createJob "" rand createResp createParsed).1
      = Except.ok ("mock-" ++ rand) := by rw [hcreate]
  refine ⟨mkResult ("mock-" ++ rand) inputHash now
      ⟨"succeeded", some "https://example.com/mock.glb",
        some "https://placehold.co/400x300", none⟩ false, ?_,
    rfl, rfl, rfl, rfl, rfl, rfl, rfl, rfl⟩
  simp only [generateModelBody, hcreate1, hpoll]
  rfl

/-- Witness for C7 at concrete oracles. -/
theorem mock_mode_no_network_succeeds_witness :
    createJob "" "abc123" ⟨true, ""⟩ "tid"
      = (.ok ("mock-" ++ "abc123"), 0) ∧
    (∀ resp parsed, getJob ("mock-" ++ "abc123") resp parsed
      = (.ok mockJobResp, 0)) ∧
    (∃ g, generateModelBody "" "abc123" ⟨true, ""⟩ "tid" (fun _ => ⟨true, ""⟩)
        (fun _ => ⟨"", none, none, none⟩) 0 (fun _ => 0) 2 "h" "model:k" 7 []
        = some (.ok (g, cacheSet 7 [] "model:k" g (some GENERATE_TTL_MS))) ∧
      g.id = "mock-" ++ "abc123" ∧ g.inputHash = "h" ∧ g.createdAt = 7 ∧
      g.status = "succeeded" ∧
      g.glbUrl = some "https://example.com/mock.glb" ∧
      g.previewImageUrl = some "https://placehold.co/400x300" ∧
      g.provider = "mock" ∧ g.errorMessage = none) :=
  mock_mode_no_network_succeeds "abc123" ⟨true, ""⟩ "tid" (fun _ => ⟨true, ""⟩)
    (fun _ => ⟨"", none, none, none⟩) 0 (fun _ => 0) 2 "h" "model:k" 7 []
    (by decide) (by decide)

/-- C10: a run of `generateModel`'s operation that ends with a `'failed'`
result still writes that result to the cache under the request's key with
the 7-day TTL, so any identical request issued while `now2 - now ≤ 7 days`
finds it: `cacheGet` returns the failed record unexpired, and the front of
`generateModel` short-circuits to the cached failed result without
touching the in-flight registry (no new job submission). -/
theorem failed_result_cached (apiKey rand : String) (createResp : HttpResp)
    (createParsed : String) (pollResps : Nat → HttpResp)
    (pollParsed : Nat → JobResp) (start : Nat) (clock : Nat → Nat)
    (fuel : Nat) (input : GenerationInput) (inputHash : String) (now : Nat)
    (s : Store GeneratedModel) (res : GeneratedModel)
    (s2 : Store GeneratedModel)
    (hrun : generateModelBody apiKey rand createResp createParsed pollResps
        pollParsed start clock fuel inputHash (generateModelKey input) now s
        = some (.ok (res, s2)))
    (hfailed : res.status = "failed") (now2 : Nat)
    (httl : now2 - now ≤ GENERATE_TTL_MS) (m : Inflight) (opId : Nat) :
    res.status = "failed" ∧
    storeGet s2 (generateModelKey input)
      = some ⟨res, now, some GENERATE_TTL_MS⟩ ∧
    cacheGet now2 s2 (generateModelKey input) = (s2, some res) ∧
    generateModelEnter now2 s2 m input opId = (s2, m, .cachedHit res) := by
  refine ⟨hfailed, ?_⟩
  have hs2 : s2
      = cacheSet now s (generateModelKey input) res (some GENERATE_TTL_MS) := by
    cases hc : (createJob apiKey rand createResp createParsed).1 with
    | error e =>
      simp only [generateModelBody, hc] at hrun
      exact absurd hrun (by simp)
    | ok taskId =>
      cases hp : pollLoop
          (fun i => (getJob taskId (pollResps i) (pollParsed i)).1)
          clock start fuel 0 initPollSt with
      | none =>
        simp only [generateModelBody, hc, hp] at hrun
        exact absurd hrun (by simp)
      | some r =>
        cases r with
        | error e =>
          simp only [generateModelBody, hc, hp] at hrun
          exact absurd hrun (by simp)
        | ok p =>
          obtain ⟨st, k2⟩ := p
          simp only [generateModelBody, hc, hp, Option.some.injEq,
            Except.ok.injEq, Prod.mk.injEq] at hrun
          rw [← hrun.2, ← hrun.1]
  subst hs2
  have hcg : cacheGet now2
      (cacheSet now s (generateModelKey input) res (some GENERATE_TTL_MS))
      (generateModelKey input)
      = (cacheSet now s (generateModelKey input) res (some GENERATE_TTL_MS),
         some res) := by
    rw [cacheGet_after_set, if_neg]
    simp only [Option.getD]
    omega
  refine ⟨storeGet_storeSet_self s (generateModelKey input)
      ⟨res, now, some GENERATE_TTL_MS⟩, hcg, ?_⟩
  simp only [generateModelEnter, hcg]

/-- Witness for C10: an authenticated run whose polls always answer
`processing` until the clock (60 s per guard check) exceeds the ceiling at
check 2; the failed result is cached and an identical request at time 100
hits it. -/
theorem failed_result_cached_witness :
    ("failed" : String) = "failed" ∧
    storeGet
      (cacheSet 9 ([] : Store GeneratedModel) (generateModelKey [(GenField.promptText, "x")])
        ⟨"tid", "h", 9, "failed", none, none, "meshy", some "busy"⟩
        (some GENERATE_TTL_MS))
      (generateModelKey [(GenField.promptText, "x")])
      = some ⟨⟨"tid", "h", 9, "failed", none, none, "meshy", some "busy"⟩,
          9, some GENERATE_TTL_MS⟩ ∧
    cacheGet 100
      (cacheSet 9 ([] : Store GeneratedModel) (generateModelKey [(GenField.promptText, "x")])
        ⟨"tid", "h", 9, "failed", none, none, "meshy", some "busy"⟩
        (some GENERATE_TTL_MS))
      (generateModelKey [(GenField.promptText, "x")])
      = (cacheSet 9 ([] : Store GeneratedModel) (generateModelKey [(GenField.promptText, "x")])
          ⟨"tid", "h", 9, "failed", none, none, "meshy", some "busy"⟩
          (some GENERATE_TTL_MS),
         some ⟨"tid", "h", 9, "failed", none, none, "meshy", some "busy"⟩) ∧
    generateModelEnter 100
      (cacheSet 9 ([] : Store GeneratedModel) (generateModelKey [(GenField.promptText, "x")])
        ⟨"tid", "h", 9, "failed", none, none, "meshy", some "busy"⟩
        (some GENERATE_TTL_MS))
      [] [(GenField.promptText, "x")] 0
      = (cacheSet 9 ([] : Store GeneratedModel) (generateModelKey [(GenField.promptText, "x")])
          ⟨"tid", "h", 9, "failed", none, none, "meshy", some "busy"⟩
          (some GENERATE_TTL_MS),
         [], .cachedHit ⟨"tid", "h", 9, "failed", none, none, "meshy",
            some "busy"⟩) :=
  failed_result_cached "k" "r" ⟨true, ""⟩ "tid" (fun _ => ⟨true, ""⟩)
    (fun _ => ⟨"processing", none, none, some "busy"⟩) 0 (fun i => i * 60000)
    5 [(GenField.promptText, "x")] "h" 9 ([] : Store GeneratedModel)
    ⟨"tid", "h", 9, "failed", none, none, "meshy", some "busy"⟩
    (cacheSet 9 ([] : Store GeneratedModel) (generateModelKey [(GenField.promptText, "x")])
      ⟨"tid", "h", 9, "failed", none, none, "meshy", some "busy"⟩
      (some GENERATE_TTL_MS))
    rfl rfl 100 (by decide) [] 0

/-- C4: two `generateModel` calls for the same request while the first
caller's operation is still pending: both compute the same key
`generateModelKey input`; the first finds the cache and registry empty for
it, so it starts its operation `i` and registers it; the second still
misses the cache (the result is only cached when the operation finishes)
and finds operation `i` registered, so it joins that pending promise
instead of starting operation `j` — exactly one job is created and both
callers await the identical promise, hence receive the identical result
with the identical `taskId`. -/
theorem generateModel_concurrent_single_job (input : GenerationInput)
    (now1 now2 : Nat) (s1 s2 : Store GeneratedModel) (m1 m2 : Inflight)
    (i j : Nat)
    (hmiss1 : (cacheGet now1 s1 (generateModelKey input)).2 = none)
    (hfree : inflightGet m1 (generateModelKey input) = none)
    (hpend : inflightGet m2 (generateModelKey input) = some i)
    (hmiss2 : (cacheGet now2 s2 (generateModelKey input)).2 = none) :
    generateModelEnter now1 s1 m1 input i
      = ((cacheGet now1 s1 (generateModelKey input)).1,
         inflightSet m1 (generateModelKey input) i, .startedOp i) ∧
    inflightGet (inflightSet m1 (generateModelKey input) i)
      (generateModelKey input) = some i ∧
    generateModelEnter now2 s2 m2 input j
      = ((cacheGet now2 s2 (generateModelKey input)).1, m2,
         .joinedPending i) := by
  refine ⟨?_, inflightGet_inflightSet_self m1 (generateModelKey input) i, ?_⟩
  · cases hcg : cacheGet now1 s1 (generateModelKey input) with
    | mk s1a o =>
      rw [hcg] at hmiss1
      simp only at hmiss1
      subst hmiss1
      simp only [generateModelEnter, hcg, dedupe, hfree]
      simp
  · cases hcg : cacheGet now2 s2 (generateModelKey input) with
    | mk s2a o =>
      rw [hcg] at hmiss2
      simp only at hmiss2
      subst hmiss2
      simp only [generateModelEnter, hcg, dedupe, hpend]
      simp

/-- Witness for C4 at the spec's end-to-end request
`{promptText: "a low-poly horse", style: "low-poly"}`. -/
theorem generateModel_concurrent_single_job_witness :
    generateModelEnter 0 [] []
        [(GenField.promptText, "a low-poly horse"),
         (GenField.style, "low-poly")] 0
      = ((cacheGet 0 []
            (generateModelKey
              [(GenField.promptText, "a low-poly horse"),
               (GenField.style, "low-poly")])).1,
         inflightSet []
           (generateModelKey
             [(GenField.promptText, "a low-poly horse"),
              (GenField.style, "low-poly")]) 0, .startedOp 0) ∧
    inflightGet
      (inflightSet []
        (generateModelKey
          [(GenField.promptText, "a low-poly horse"),
           (GenField.style, "low-poly")]) 0)
      (generateModelKey
        [(GenField.promptText, "a low-poly horse"),
         (GenField.style, "low-poly")]) = some 0 ∧
    generateModelEnter 0 []
        (inflightSet []
          (generateModelKey
            [(GenField.promptText, "a low-poly horse"),
             (GenField.style, "low-poly")]) 0)
        [(GenField.promptText, "a low-poly horse"),
         (GenField.style, "low-poly")] 1
      = ((cacheGet 0 []
            (generateModelKey
              [(GenField.promptText, "a low-poly horse"),
               (GenField.style, "low-poly")])).1,
         inflightSet []
           (generateModelKey
             [(GenField.promptText, "a low-poly horse"),
              (GenField.style, "low-poly")]) 0, .joinedPending 0) :=
  generateModel_concurrent_single_job
    [(GenField.promptText, "a low-poly horse"), (GenField.style, "low-poly")]
    0 0 [] []
    []
    (inflightSet []
      (generateModelKey
        [(GenField.promptText, "a low-poly horse"),
         (GenField.style, "low-poly")]) 0)
    0 1 rfl rfl (inflightGet_inflightSet_self _ _ _) rfl

/-- C2 counterexample: `generateModel` hashes `JSON.stringify(input)`
directly, with no field reordering or other normalization, and
`JSON.stringify` follows the object's insertion order.  The same field
values `promptText = "a low-poly horse"`, `style = "low-poly"` inserted in
the two possible orders serialize to different strings and produce
different cache/dedupe keys. -/
theorem hash_order_sensitive_counterexample :
    stringifyInput
        [(GenField.promptText, "a low-poly horse"),
         (GenField.style, "low-poly")]
      ≠ stringifyInput
        [(GenField.style, "low-poly"),
         (GenField.promptText, "a low-poly horse")] ∧
    generateModelKey
        [(GenField.promptText, "a low-poly horse"),
         (GenField.style, "low-poly")]
      ≠ generateModelKey
        [(GenField.style, "low-poly"),
         (GenField.promptText, "a low-poly horse")] :=
  ⟨by decide, by decide⟩

/-- C2 amended: the cache/dedupe key is a deterministic function of the
serialized request: any two requests whose `JSON.stringify` output
coincides (same present fields with the same values in the same insertion
order) produce the identical key.  No normalization beyond serialization
is performed, so distinct insertion orders may produce distinct keys. -/
theorem hash_deterministic_on_serialization (o1 o2 : GenerationInput)
    (h : stringifyInput o1 = stringifyInput o2) :
    generateModelKey o1 = generateModelKey o2 := by
  rw [generateModelKey, generateModelKey, h]

/-- Witness for the amended C2: two separately constructed lists with the
same fields in the same order serialize identically, hence hash
identically. -/
theorem hash_deterministic_on_serialization_witness :
    generateModelKey
        [(GenField.promptText, "a low-poly horse"),
         (GenField.style, "low-poly")]
      = generateModelKey
        ([(GenField.promptText, "a low-poly horse")]
          ++ [(GenField.style, "low-poly")]) :=
  hash_deterministic_on_serialization
    [(GenField.promptText, "a low-poly horse"), (GenField.style, "low-poly")]
    ([(GenField.promptText, "a low-poly horse")]
      ++ [(GenField.style, "low-poly")]) rfl

/-- C8 counterexample: the generation-job creation call does not carry the
response body text in its error.  A non-2xx response with body
`"quota exceeded"` makes `createJob` throw the fixed message
`'Failed to create job'`, not the body text. -/
theorem createJob_error_discards_body_counterexample :
    (createJob "key" "r" ⟨false, "quota exceeded"⟩ "tid").1
      = .error "Failed to create job" ∧
    "Failed to create job" ≠ "quota exceeded" :=
  ⟨rfl, by decide⟩

/-- C8 amended: every non-2xx response makes the call throw and no retry
happens at this layer (each call performs exactly one fetch); the
model-library calls (search / detail / popular / categories / download)
throw the response body text when non-empty and their generic message
otherwise, while the generation calls (`createJob` / `getJob`) always
throw their fixed generic messages `'Failed to create job'` /
`'Failed to get job'`, discarding any body text. -/
theorem http_error_propagation (resp : HttpResp) (hok : resp.ok = false) :
    (∀ apiKey rand parsedTaskId, apiKey ≠ "" →
      createJob apiKey rand resp parsedTaskId
        = (.error "Failed to create job", 1)) ∧
    (∀ taskId (parsed : JobResp), strStartsWith taskId "mock-" = false →
      getJob taskId resp parsed = (.error "Failed to get job", 1)) ∧
    (∀ (α : Type) (parsed : α),
      searchSketchfabModelsFetch resp parsed
        = .error (if resp.bodyText == "" then
            "Failed to search Sketchfab models" else resp.bodyText)) ∧
    (∀ (α : Type) (parsed : α),
      getSketchfabModelFetch resp parsed
        = .error (if resp.bodyText == "" then
            "Failed to get Sketchfab model" else resp.bodyText)) ∧
    (∀ (α : Type) (parsed : α),
      getPopularSketchfabModelsFetch resp parsed
        = .error (if resp.bodyText == "" then
            "Failed to get popular Sketchfab models" else resp.bodyText)) ∧
    (∀ (α : Type) (parsed : α),
      getSketchfabCategoriesFetch resp parsed
        = .error (if resp.bodyText == "" then
            "Failed to get Sketchfab categories" else resp.bodyText)) ∧
    (∀ (V : Type) apiKey rand nowIso expiresIso request parsed
        (s : Store V) (m : Inflight), apiKey ≠ "" →
      downloadSketchfabModel apiKey rand nowIso expiresIso request resp
          parsed s m
        = (.error (if resp.bodyText == "" then
            "Failed to download Sketchfab model" else resp.bodyText),
           s, m, 1)) := by
  refine ⟨fun apiKey rand parsedTaskId hk => ?_,
    fun taskId parsed hm => ?_, fun α parsed => ?_, fun α parsed => ?_,
    fun α parsed => ?_, fun α parsed => ?_,
    fun V apiKey rand nowIso expiresIso request parsed s m hk => ?_⟩
  · rw [createJob, if_neg (by simpa using hk), if_neg (by simp [hok])]
  · rw [getJob, if_neg (by simp [hm]), if_neg (by simp [hok])]
  · rw [searchSketchfabModelsFetch, sketchfabFetch,
      if_neg (by simp [hok]), sketchfabErrorMessage]
  · rw [getSketchfabModelFetch, sketchfabFetch,
      if_neg (by simp [hok]), sketchfabErrorMessage]
  · rw [getPopularSketchfabModelsFetch, sketchfabFetch,
      if_neg (by simp [hok]), sketchfabErrorMessage]
  · rw [getSketchfabCategoriesFetch, sketchfabFetch,
      if_neg (by simp [hok]), sketchfabErrorMessage]
  · rw [downloadSketchfabModel, if_neg (by simpa using hk), sketchfabFetch,
      if_neg (by simp [hok]), sketchfabErrorMessage]

/-- Witness for the amended C8: a non-2xx response with body
`"quota exceeded"` — the model-library search error carries the body, the
generation-create error carries the fixed message, each with one fetch. -/
theorem http_error_propagation_witness :
    createJob "key" "r" ⟨false, "quota exceeded"⟩ "tid"
      = (.error "Failed to create job", 1) ∧
    getJob "tid" ⟨false, "quota exceeded"⟩ ⟨"", none, none, none⟩
      = (.error "Failed to get job", 1) ∧
    searchSketchfabModelsFetch (α := Nat) ⟨false, "quota exceeded"⟩ 0
      = .error (if ("quota exceeded" : String) == "" then
          "Failed to search Sketchfab models" else "quota exceeded") :=
  ⟨(http_error_propagation ⟨false, "quota exceeded"⟩ rfl).1
      "key" "r" "tid" (by decide),
   (http_error_propagation ⟨false, "quota exceeded"⟩ rfl).2.1
      "tid" ⟨"", none, none, none⟩ (by decide),
   (http_error_propagation ⟨false, "quota exceeded"⟩ rfl).2.2.1 Nat 0⟩

/-- C9: `downloadSketchfabModel` never touches the cache store or the
in-flight registry — whatever the configuration, response or payload, the
store and registry after the call are those before it — and with a
credential configured every call performs exactly one fetch of its own, so
two duplicate calls perform two independent fetches (each counts 1). -/
theorem download_not_cached_not_deduped {V : Type}
    (apiKey rand1 rand2 nowIso1 nowIso2 exp1 exp2 : String)
    (req : SketchfabDownloadRequest) (resp1 resp2 : HttpResp)
    (parsed1 parsed2 : SketchfabDownloadResponse) (s : Store V)
    (m : Inflight) (hkey : apiKey ≠ "") :
    (∀ ak rand nowIso expiresIso resp parsed,
      (downloadSketchfabModel ak rand nowIso expiresIso req resp parsed
          s m).2.1 = s ∧
      (downloadSketchfabModel ak rand nowIso expiresIso req resp parsed
          s m).2.2.1 = m) ∧
    (downloadSketchfabModel apiKey rand1 nowIso1 exp1 req resp1 parsed1
        s m).2.2.2 = 1 ∧
    (downloadSketchfabModel apiKey rand2 nowIso2 exp2 req resp2 parsed2
        s m).2.2.2 = 1 := by
  have hne : (apiKey == "") ≠ true := by simpa using hkey
  refine ⟨fun ak rand nowIso expiresIso resp parsed => ?_, ?_, ?_⟩
  · by_cases hak : (ak == "") = true <;>
      simp [downloadSketchfabModel, hak]
  · simp [downloadSketchfabModel, hne]
  · simp [downloadSketchfabModel, hne]

/-- Witness for C9 at a concrete configured client and non-empty state. -/
theorem download_not_cached_not_deduped_witness :
    (∀ ak rand nowIso expiresIso resp parsed,
      (downloadSketchfabModel ak rand nowIso expiresIso ⟨"uid", none, none⟩
          resp parsed [("c", (⟨3, 0, none⟩ : CacheRecord Nat))]
          [("d", 4)]).2.1 = [("c", (⟨3, 0, none⟩ : CacheRecord Nat))] ∧
      (downloadSketchfabModel ak rand nowIso expiresIso ⟨"uid", none, none⟩
          resp parsed [("c", (⟨3, 0, none⟩ : CacheRecord Nat))]
          [("d", 4)]).2.2.1 = [("d", 4)]) ∧
    (downloadSketchfabModel "dev" "r1" "t1" "e1" ⟨"uid", none, none⟩
        ⟨true, ""⟩ ⟨"uid", "d1", "success", "", none, none, none, none,
          none, none, "t", "e", none, none⟩
        [("c", (⟨3, 0, none⟩ : CacheRecord Nat))] [("d", 4)]).2.2.2 = 1 ∧
    (downloadSketchfabModel "dev" "r2" "t2" "e2" ⟨"uid", none, none⟩
        ⟨true, ""⟩ ⟨"uid", "d2", "success", "", none, none, none, none,
          none, none, "t", "e", none, none⟩
        [("c", (⟨3, 0, none⟩ : CacheRecord Nat))] [("d", 4)]).2.2.2 = 1 :=
  download_not_cached_not_deduped "dev" "r1" "r2" "t1" "t2" "e1" "e2"
    ⟨"uid", none, none⟩ ⟨true, ""⟩ ⟨true, ""⟩
    ⟨"uid", "d1", "success", "", none, none, none, none, none, none,
      "t", "e", none, none⟩
    ⟨"uid", "d2", "success", "", none, none, none, none, none, none,
      "t", "e", none, none⟩
    [("c", (⟨3, 0, none⟩ : CacheRecord Nat))] [("d", 4)] (by decide)

end ModelApp
